import Mathlib

/-!
Shallow embedding of the change-extraction and rule-application engine of
`bszet-davinci` (crate `bszet-davinci`, file `src/lib.rs`, with the base
timetable from `src/timetable/mod.rs` and `src/timetable/igd21.rs`).

Machine integers (`u8`) are modelled as `Nat` with an explicit `% 256`
where overflow matters.  Rust `panic!`/`unwrap`/`expect` sites are modelled
as `Except.error` (for the parser, which aborts the crawl) or `Option.none`
(for `get_applied_timetable`, which aborts the call).  HTML documents are
modelled by the features the code extracts from them (heading dates, `tr`
cell texts, `tbody` rows, pagination attribute).
-/

namespace Bszet

/-- Weekday, as in the `time` crate (`time::Weekday`). -/
inductive Weekday where
  | monday | tuesday | wednesday | thursday | friday | saturday | sunday
deriving DecidableEq, Repr

/-- A calendar date, as constructed by `time::Date::from_calendar_date`.
Equality of dates is structural, as in the `time` crate. -/
structure Date where
  year : Int
  month : Nat
  day : Nat
deriving DecidableEq, Repr

/-- Days since 1970-01-01 of a civil date (the standard civil-calendar
computation used by `time::Date::weekday`). -/
def daysFromCivil (d : Date) : Int :=
  let y : Int := if d.month ≤ 2 then d.year - 1 else d.year
  let era : Int := (if 0 ≤ y then y else y - 399) / 400
  let yoe : Int := y - era * 400
  let m : Int := d.month
  let doy : Int := (153 * (if 2 < m then m - 3 else m + 9) + 2) / 5 + (d.day : Int) - 1
  let doe : Int := yoe * 365 + yoe / 4 - yoe / 100 + doy
  era * 146097 + doe - 719468

/-- Weekday of a date, as `Date::weekday()` of the `time` crate computes it
(1970-01-01 was a Thursday). -/
def Date.weekday (d : Date) : Weekday :=
  match ((daysFromCivil d + 4).emod 7).toNat with
  | 0 => .sunday
  | 1 => .monday
  | 2 => .tuesday
  | 3 => .wednesday
  | 4 => .thursday
  | 5 => .friday
  | _ => .saturday

/-- Type `Subject` from `src/timetable/mod.rs`: closed enumeration of subject
codes, a recursive `Cancel` wrapper and an `Other` escape variant. -/
inductive Subject where
  | germanBasic
  | germanAdvanced
  | mathBasic
  | mathAdvanced
  | englishBasic
  | englishAdvanced
  | art
  | history
  | french
  | ethics
  | russian
  | chemistry
  | physics
  | physicalEducation
  | literature
  | lf6_7_9
  | lf9_12
  | lf8_1
  | lf8_2
  | lf10_1
  | lf10_2
  | lf11
  | lf11_1
  | lf11_2
  | lf13_1
  | lf13_2
  | faeVerb
  | none
  | cancel (inner : Subject)
  | other (text : String)
deriving DecidableEq, Repr

/-- Conversion `impl From<&str> for Subject` from `src/timetable/mod.rs`. -/
def subjectFromStr (value : String) : Subject :=
  if value = "DEU" then .germanBasic
  else if value = "LK-DEU" then .germanAdvanced
  else if value = "MA" then .mathBasic
  else if value = "LK-MA" then .mathAdvanced
  else if value = "ENG" then .englishBasic
  else if value = "LK-ENG" then .englishAdvanced
  else if value = "BK" then .art
  else if value = "BK1" then .art
  else if value = "BK2" then .art
  else if value = "GGK" then .history
  else if value = "F-B" then .french
  else if value = "ETH" then .ethics
  else if value = "R-B" then .russian
  else if value = "CH" then .chemistry
  else if value = "PHY" then .physics
  else if value = "SP" then .physicalEducation
  else if value = "LIT" then .literature
  else if value = "LF 6+7+9" then .lf6_7_9
  else if value = "LF 9+12" then .lf9_12
  else if value = "IS-GP" then .lf9_12
  else if value = "LF8D_I1" then .lf8_1
  else if value = "LF8D_I2" then .lf8_2
  else if value = "LF10D_I1" then .lf10_1
  else if value = "LF10D_I2" then .lf10_2
  else if value = "LF11D" then .lf11
  else if value = "LF11D_I" then .lf11
  else if value = "LF11D_I1" then .lf11_1
  else if value = "LF11D_I2" then .lf11_2
  else if value = "LF13D_I1" then .lf13_1
  else if value = "LF13D_I2" then .lf13_2
  else if value = "_fä.verb." then .faeVerb
  else if value = "" then .none
  else .other value

/-- Type `Lesson` from `src/timetable/mod.rs`.  The Rust field `lesson` is a `u8`
slot number. -/
structure Lesson where
  lesson : Nat
  subject : Subject
  iteration : Option Nat
  place : Option String
  notice : Option String
deriving DecidableEq, Repr

/-- Constructor `Lesson::new` from `src/timetable/mod.rs`. -/
def Lesson.new (lesson : Nat) (iteration : Option Nat) (subject : Subject)
    (place : String) : Lesson :=
  { lesson := lesson, iteration := iteration, subject := subject,
    place := some place, notice := Option.none }

/-- The static base timetable `IGD21` from `src/timetable/igd21.rs`, a map
from weekday to the lessons of the day (`HashMap::get` is `Option`-valued:
Saturday and Sunday are absent). -/
def IGD21 : Weekday → Option (List Lesson)
  | .monday => some
    [ Lesson.new 1 Option.none .germanBasic "B6",
      Lesson.new 2 Option.none .chemistry "B9",
      Lesson.new 3 (some 1) .englishAdvanced "A102",
      Lesson.new 3 (some 1) .mathAdvanced "B11",
      Lesson.new 3 (some 2) .lf11 "B5",
      Lesson.new 4 (some 1) .history "B4",
      Lesson.new 4 (some 2) .art "A06",
      Lesson.new 4 (some 2) .literature "B4" ]
  | .tuesday => some
    [ Lesson.new 1 Option.none .mathBasic "B05",
      Lesson.new 1 Option.none .englishBasic "B104",
      Lesson.new 2 Option.none .germanBasic "B6",
      Lesson.new 3 Option.none .lf13_1 "A103",
      Lesson.new 3 Option.none .lf11_2 "B3",
      Lesson.new 4 Option.none .englishAdvanced "A102",
      Lesson.new 4 Option.none .mathAdvanced "B11" ]
  | .wednesday => some
    [ Lesson.new 1 Option.none .englishAdvanced "B6",
      Lesson.new 1 Option.none .mathAdvanced "B11",
      Lesson.new 2 Option.none .englishBasic "B105",
      Lesson.new 2 Option.none .mathBasic "B106",
      Lesson.new 3 Option.none .ethics "B4",
      Lesson.new 4 Option.none .french "B111",
      Lesson.new 4 Option.none .russian "B4" ]
  | .thursday => some
    [ Lesson.new 1 Option.none .history "B4",
      Lesson.new 2 Option.none .lf9_12 "B8",
      Lesson.new 3 Option.none .physicalEducation "117.GS Neu",
      Lesson.new 4 Option.none .lf10_1 "B405",
      Lesson.new 4 Option.none .lf13_2 "A103" ]
  | .friday => some
    [ Lesson.new 1 Option.none .physics "B112",
      Lesson.new 2 Option.none .french "A102",
      Lesson.new 2 Option.none .russian "B4",
      Lesson.new 3 Option.none .lf13_1 "A103",
      Lesson.new 3 Option.none .lf10_2 "B405",
      Lesson.new 4 Option.none .lf11_1 "B5",
      Lesson.new 4 Option.none .lf13_2 "A103" ]
  | .saturday => Option.none
  | .sunday => Option.none

/-! ### String helpers

In this Lean version `String` is a structure over `List Char`, and the
library string functions do not always reduce in the kernel; the string
operations the Rust code uses (`trim`, `split(',')`, `u8::from_str`,
slicing) are therefore implemented here directly on the character list,
with the same semantics on the ASCII data the parser sees. -/

/-- ASCII whitespace test (`char::is_whitespace` restricted to the
characters occurring in the crawled documents). -/
def isWs (c : Char) : Bool := c = ' ' || c = '\t' || c = '\n' || c = '\r'

/-- Function `str::trim`: strip leading and trailing whitespace. -/
def trimS (s : String) : String :=
  ⟨((s.data.dropWhile isWs).reverse.dropWhile isWs).reverse⟩

/-- Split at commas, `str::split` followed by `trim` on every piece, as used on the
class-list column (`columns[0].split(',').map(|v| v.trim().to_string())`). -/
def splitClasses (s : String) : List String :=
  (splitAux s.data []).map trimS
where
  /-- split a character list at every `','` (empty pieces kept). -/
  splitAux : List Char → List Char → List String
    | [], acc => [⟨acc.reverse⟩]
    | c :: rest, acc =>
      if c = ',' then ⟨acc.reverse⟩ :: splitAux rest []
      else splitAux rest (c :: acc)

/-- digit-string to number, `u8::from_str` style: at least one digit,
nothing but digits (the `u8` range check is made at the call site). -/
def parseNatS (s : String) : Option Nat :=
  if s.data = [] then Option.none
  else if s.data.all Char.isDigit then
    some (s.data.foldl (fun acc c => acc * 10 + (c.toNat - 48)) 0)
  else Option.none

/-- drop the last character of a string (`&s[..s.len() - 1]` on ASCII data). -/
def dropLastS (s : String) : String := ⟨s.data.dropLast⟩

/-- Function `clean` from `src/lib.rs`: trims, then removes one starting `(` and
ending `)` pair. -/
def clean (value : String) : String :=
  let value := trimS value
  if value.data.head? = some '(' && value.data.getLast? = some ')' then
    ⟨value.data.dropLast.drop 1⟩
  else value

/-- Function `convert_lesson` from `src/lib.rs`: convert a raw single-period hour
number to a block number, `(lesson + lesson % 2) / 2` in `u8` arithmetic
(the sum wraps modulo 256; this matters only for the input 255). -/
def convert_lesson (lesson : Nat) : Nat :=
  ((lesson + lesson % 2) % 256) / 2

/-! ### The Change model

`src/lib.rs` declares `mod change;` and uses `Change::new`,
`Change::lesson` and `Change::apply`, but `change.rs` itself is not part
of the provided sources. -/

/-- Modelled from the spec: the module `change.rs` (the `Change` type) is
missing from the sources.  §2/§3: "a closed set of substitution kinds
(cancel, time-shift, room-move, subject-swap, free-text notice)"; each
variant carries the fields needed to locate and mutate a matching Lesson. -/
inductive Change where
  | cancel (lesson : Nat) (subject : Subject)
  | placeChange (lesson : Nat) (subject : Subject) (place : String)
  | replacement (lesson : Nat) (oldSubject : Subject) (newSubject : Subject)
      (place : Option String) (notice : Option String)
  | noticeChange (lesson : Nat) (subject : Subject) (notice : Option String)
deriving DecidableEq, Repr

/-- Modelled from the spec: the addressed block/slot number carried by every
`Change` variant (`Change::lesson`, used by the parser to inherit a blank
slot column from the previous row). -/
def Change.lesson : Change → Nat
  | .cancel l _ => l
  | .placeChange l _ _ => l
  | .replacement l _ _ _ _ => l
  | .noticeChange l _ _ => l

/-- Modelled from the spec: the "old" subject a `Change` expects in the slot
it addresses (§4.3: the "current subject" of the target lesson "matches the
recorded old value" of the Change). -/
def Change.oldSubject : Change → Subject
  | .cancel _ s => s
  | .placeChange _ s _ => s
  | .replacement _ s _ _ _ => s
  | .noticeChange _ s _ => s

/-- Modelled from the spec (§4.3): the per-kind mutation of a matched
lesson — a cancellation wraps the subject in `Cancel`, a room move replaces
the place, a swap replaces subject/room/notice, a pure-notice change only
attaches free text. -/
def Change.mutate : Change → Lesson → Lesson
  | .cancel _ _, l => { l with subject := .cancel l.subject }
  | .placeChange _ _ p, l => { l with place := some p }
  | .replacement _ _ n p no, l => { l with subject := n, place := p, notice := no }
  | .noticeChange _ _ no, l => { l with notice := no }

/-- Modelled from the spec (§4.3): `Change::apply(day) -> bool` locates the
first lesson whose slot number matches the addressed slot of the Change and
whose current subject matches the recorded "old" value; if none matches it
returns `false` and leaves the day unchanged, otherwise it mutates that
lesson and returns `true`. -/
def Change.apply (c : Change) : List Lesson → List Lesson × Bool
  | [] => ([], false)
  | l :: rest =>
    if l.lesson = c.lesson ∧ l.subject = c.oldSubject then
      (c.mutate l :: rest, true)
    else
      let res := Change.apply c rest
      (l :: res.1, res.2)

/-- Modelled from the spec: is this change of the cancellation kind (the
kind that the two-pass description of the spec applies first)? -/
def Change.isCancel : Change → Bool
  | .cancel _ _ => true
  | _ => false

/-- Modelled from the spec (§3): `Change::new(lesson, time, old, new, room,
notice)` builds a change from the columns of one parsed row; "partial/malformed
combinations fail at construction".  An empty new-value column with a
non-empty old value encodes a cancellation (§8); otherwise the row is a
replacement of the old subject; a row with neither old nor new value is a
pure notice when a notice is present and malformed otherwise. -/
def Change.new (lesson : Nat) (_time : String) (old : String) (new : String)
    (room : String) (notice : Option String) : Except String Change :=
  if old = "" ∧ new = "" then
    match notice with
    | some _ => .ok (.noticeChange lesson (subjectFromStr old) notice)
    | Option.none => .error "unable to parse change: empty columns"
  else if new = "" then
    .ok (.cancel lesson (subjectFromStr old))
  else
    .ok (.replacement lesson (subjectFromStr old) (subjectFromStr new)
      (if room = "" then Option.none else some room) notice)

/-- Type `Row` from `src/lib.rs`: `date`, `class` (a `Vec<String>` of class
names; named `classes` here because `class` is a Lean keyword) and
`change`.  `#[derive(PartialEq, Eq, Hash)]` is structural, so equality is
componentwise and the class list is compared as an ordered sequence. -/
structure Row where
  date : Date
  classes : List String
  change : Change
deriving DecidableEq, Repr

/-! ### The application engine (`Davinci::get_applied_timetable`) -/

/-- The iteration filter of `get_applied_timetable` (`src/lib.rs` lines
72-84): keep a lesson when it has no iteration marker or its marker equals
the iteration of the date. -/
def iteration_filter (day0 : List Lesson) (iteration : Nat) : List Lesson :=
  day0.filterMap fun lesson =>
    match lesson.iteration with
    | some l_iteration =>
      if l_iteration ≠ iteration then Option.none else some lesson
    | Option.none => some lesson

/-- The body of the row loop of `get_applied_timetable` (`src/lib.rs` lines
89-100): a row for another date or a class other than `IGD21`/`IGD 21` is
skipped; otherwise its change is applied to the day, and the row is pushed
onto the relevant/unknown list when the change did not apply. -/
def applyRow (date : Date) (acc : List Lesson × List Row) (row : Row) :
    List Lesson × List Row :=
  if row.date ≠ date ∨
      ¬(row.classes.contains "IGD21" = true ∨ row.classes.contains "IGD 21" = true) then
    acc
  else
    let res := row.change.apply acc.1
    if res.2 then (res.1, acc.2) else (res.1, acc.2 ++ [row])

/-- The stored snapshot `Data` from `src/lib.rs`.  Timestamps
(`OffsetDateTime`) are modelled as `Nat`, URLs as strings.  `rows` is a
`HashSet<Row>`; it is modelled as the list of the elements of the set in its
iteration order (duplicate-free by construction of `update`). -/
structure Data where
  last_checked : Nat
  last_modified : Nat
  rows : List Row
  visited_urls : List String
deriving DecidableEq, Repr

/-- Method `Davinci::get_applied_timetable` from `src/lib.rs` (lines 66-104).
The iteration rule `get_iteration` lives in the module `iteration.rs`,
which is missing from the sources; modelled from the spec (§6) it is an
external `date → optional integer` collaborator, so its result for the
target date is taken as the parameter `iter?`.  The two panics (no
iteration for the date, weekday absent from `IGD21`) are modelled as
`Option.none`; the store read `self.data` is the `store` parameter. -/
def get_applied_timetable (iter? : Option Nat) (date : Date)
    (store : Option Data) : Option (List Lesson × List Row) :=
  match iter? with
  | Option.none => Option.none
  | some iteration =>
    match IGD21 date.weekday with
    | Option.none => Option.none
    | some day0 =>
      let day := iteration_filter day0 iteration
      match store with
      | Option.none => some (day, [])
      | some data => some (data.rows.foldl (applyRow date) (day, []))

/-- Definition following the words of the spec (§4.4), for comparison with
`get_applied_timetable`: the stored rows are applied "in two ordered
passes: first all cancellation-kind changes, then all remaining kinds".
Everything else is as in `get_applied_timetable`. -/
def get_applied_timetable_twopass (iter? : Option Nat) (date : Date)
    (store : Option Data) : Option (List Lesson × List Row) :=
  match iter? with
  | Option.none => Option.none
  | some iteration =>
    match IGD21 date.weekday with
    | Option.none => Option.none
    | some day0 =>
      let day := iteration_filter day0 iteration
      match store with
      | Option.none => some (day, [])
      | some data =>
        let cancels := data.rows.filter fun r => r.change.isCancel
        let others := data.rows.filter fun r => ¬r.change.isCancel
        some ((cancels ++ others).foldl (applyRow date) (day, []))

/-! ### The row extractor (`Davinci::fetch`, table-body loop) -/

/-- The lesson-slot column of one row (`src/lib.rs` lines 282-288): blank
means "inherit", otherwise the column minus its trailing `.` is parsed with
`u8::from_str` (failure is an `unwrap` panic, modelled as an error) and
converted with `convert_lesson`. -/
def lessonOf (c1 : String) : Except String (Option Nat) :=
  if c1 = "" then .ok Option.none
  else
    match parseNatS (dropLastS c1) with
    | some n =>
      if n ≤ 255 then .ok (some (convert_lesson n))
      else .error "panicked: u8 out of range"
    | Option.none => .error "panicked: invalid lesson number"

/-- One round of the table-body row loop of `Davinci::fetch` (`src/lib.rs`
lines 257-324): clean the seven columns (any other count is the panic
`Invalid count of columns`), read class list, slot and notice, inherit
blank class/slot from the last accumulated row (`rows.last()`), or fail on
the first row of the crawl (`expect("First row, can not have missing
fields.")`), and construct the `Change`. -/
def parseRowStep (date : Date) (rows : List Row) (tr : List String) :
    Except String (List Row) :=
  let columns := tr.map clean
  if columns.length ≠ 7 then .error "panicked: Invalid count of columns"
  else
    let c0 := columns.getD 0 ""
    let c1 := columns.getD 1 ""
    let c2 := columns.getD 2 ""
    let c3 := columns.getD 3 ""
    let c4 := columns.getD 4 ""
    let c5 := columns.getD 5 ""
    let c6 := columns.getD 6 ""
    let classes? := if c0 = "" then Option.none else some (splitClasses c0)
    match lessonOf c1 with
    | .error e => .error e
    | .ok lesson? =>
      let notice := if c6 = "" then Option.none else some c6
      match rows.getLast? with
      | some last =>
        match Change.new (lesson?.getD last.change.lesson) c5 c2 c3 c4 notice with
        | .error e => .error e
        | .ok change =>
          .ok (rows ++ [{ date := date, classes := classes?.getD last.classes,
                          change := change }])
      | Option.none =>
        match classes? with
        | Option.none => .error "panicked: First row, can not have missing fields."
        | some classes =>
          match lesson? with
          | Option.none => .error "panicked: First row, can not have missing fields."
          | some lesson =>
            match Change.new lesson c5 c2 c3 c4 notice with
            | .error e => .error e
            | .ok change =>
              .ok (rows ++ [{ date := date, classes := classes, change := change }])

/-- The table-body row loop of `Davinci::fetch`: fold `parseRowStep` over
the table rows of the page, aborting at the first error. -/
def parseTableRows (date : Date) (rows : List Row) :
    List (List String) → Except String (List Row)
  | [] => .ok rows
  | tr :: rest =>
    match parseRowStep date rows tr with
    | .error e => .error e
    | .ok rows' => parseTableRows date rows' rest

/-! ### The page fetcher/paginator and the snapshot store
(`Davinci::fetch`, `Davinci::update`) -/

/-- One fetched HTML page, modelled by the features `Davinci::fetch`
extracts from the HTTP response and the document: the HTTP status
(`error_for_status`), the parsed `Last-Modified` header (absent = missing
or unparseable), the dates captured by `DATE_REGEX` from the `h1` headings
in document order, the trimmed `td` texts of every `tr` of the document
(pushed into `html_rows`), the raw `td` texts of the rows of the first
`tbody` (absent = no `tbody`), and the `onclick` attribute of the last
`input` that has one (the pagination handler). -/
structure Page where
  statusOk : Bool
  lastModified : Option Nat
  h1Dates : List Date
  allTrs : List (List String)
  tbodyRows : Option (List (List String))
  onclick : Option String
deriving DecidableEq, Repr

/-- Join, as `Url::join`, of the entrypoint with the relative path sliced out of the
pagination handler: resolve the path against the entrypoint by replacing
everything after the last `/` of the entrypoint. -/
def urlJoin (base ref : String) : String :=
  ⟨(base.data.reverse.dropWhile (· ≠ '/')).reverse ++ ref.data⟩

/-- Method `Davinci::fetch` from `src/lib.rs` (lines 196-338), as a function of
the received page: check the status, require the `Last-Modified` header,
take the last heading date (the `h1` loop overwrites `date` on every
match) or fail, append the trimmed cells of every `tr` to `html_rows` tagged
with the date, require a `tbody` and parse its rows into `rows`, and
compute the next URL from the pagination handler (`&js[22..js.len() - 1]`
joined onto the entrypoint), returning it only if it differs from the
current URL.  Returns the grown accumulators, the modification
time (used only for logging in the source) and the optional next URL. -/
def fetch (entrypoint url : String) (page : Page) (rows : List Row)
    (html_rows : List (Date × List String)) :
    Except String ((List Row) × (List (Date × List String)) × Nat × Option String) :=
  if ¬page.statusOk then .error "http status error"
  else
    match page.lastModified with
    | Option.none => .error "last-modified http header is required"
    | some last_modified =>
      match page.h1Dates.getLast? with
      | Option.none => .error "Missing date in document"
      | some date =>
        let html_rows := html_rows ++ page.allTrs.map fun tds => (date, tds.map trimS)
        match page.tbodyRows with
        | Option.none => .error "Missing time table in document"
        | some table =>
          match parseTableRows date rows table with
          | .error e => .error e
          | .ok rows =>
            let next? :=
              match page.onclick with
              | some js =>
                let next := urlJoin entrypoint ⟨(js.data.drop 22).dropLast⟩
                if next ≠ url then some next else Option.none
              | Option.none => Option.none
            .ok (rows, html_rows, last_modified, next?)

/-- The crawl loop of `Davinci::update` (`src/lib.rs` lines 113-120):
record the current URL as visited, fetch it, and follow the returned next
URL until `fetch` reports none.  The pages are the sequence of HTTP
responses the server returns for the successive requests; a crawl that
asks for more pages than that sequence holds cannot proceed. -/
def crawlLoop (entrypoint : String) : String → List Page → List Row →
    List (Date × List String) → List String →
    Except String (List Row × List (Date × List String) × List String)
  | _, [], _, _, _ => .error "no response"
  | url, page :: pages, rows, html_rows, visited =>
    let visited := visited ++ [url]
    match fetch entrypoint url page rows html_rows with
    | .error e => .error e
    | .ok (rows, html_rows, _, Option.none) => .ok (rows, html_rows, visited)
    | .ok (rows, html_rows, _, some next) =>
      crawlLoop entrypoint next pages rows html_rows visited

/-- Insertion, `HashSet::insert`, of all crawled rows (`src/lib.rs` lines 172-175):
the set elements in insertion order, duplicates dropped. -/
def hashInsertAll (rows : List Row) : List Row :=
  rows.foldl (fun acc r => if acc.contains r then acc else acc ++ [r]) []

/-- Equality of a `HashSet` (`hash == data.rows`): same elements, order
irrelevant. -/
def rowSetEq (a b : List Row) : Bool :=
  a.all (fun r => b.contains r) && b.all (fun r => a.contains r)

/-- The date `2023-01-27` hard-coded in the debug block of
`Davinci::update` (`src/lib.rs` lines 145-151). -/
def debugDate : Date := ⟨2023, 1, 27⟩

/-- Method `Davinci::update` from `src/lib.rs` (lines 106-194) as a state
transition on the stored snapshot: crawl all pages (an error leaves the
store untouched and is returned), rebuild the per-date HTML row map and
print the page for the hard-coded date `2023-01-27` — the `.unwrap()`
there panics when no crawled `tr` carries that date (modelled as an error
that leaves the store untouched, since the panic unwinds before the write
lock is taken) — then insert the rows into a `HashSet`; if a snapshot is
stored and the set equals its rows, only `last_checked` advances and the
call returns `false`; otherwise the snapshot is replaced wholesale (both
timestamps set to `now`) and the call returns `true`. -/
def update (now : Nat) (entrypoint : String) (pages : List Page)
    (store : Option Data) : Except String Bool × Option Data :=
  match crawlLoop entrypoint entrypoint pages [] [] [] with
  | .error e => (.error e, store)
  | .ok (rows, html_rows, visited_urls) =>
    if ¬(html_rows.map Prod.fst).contains debugDate then
      (.error "panicked: unwrap on html_rows2.get(2023-01-27)", store)
    else
      let hash := hashInsertAll rows
      match store with
      | some data =>
        if rowSetEq hash data.rows then
          (.ok false, some { data with last_checked := now })
        else
          (.ok true, some { last_checked := now, last_modified := now,
                            rows := hash, visited_urls := visited_urls })
      | Option.none =>
        (.ok true, some { last_checked := now, last_modified := now,
                          rows := hash, visited_urls := visited_urls })

/-- Definition following the words of the spec (§3, §4.1), for comparison
with `update`: "`last_modified` (max of all pages\x27 server-reported
modification times)". -/
def spec_max_last_modified (pages : List Page) : Option Nat :=
  pages.foldl
    (fun acc p =>
      match p.lastModified with
      | some t => some (max (acc.getD 0) t)
      | Option.none => acc)
    Option.none

/-! ### Concrete rows used to separate the single-pass code from the
two-pass spec description (the §8 ordering scenario: slot 2 on Monday is
both re-roomed and cancelled). -/

/-- A Monday during iteration 1 (2023-01-23). -/
def c1date : Date := ⟨2023, 1, 23⟩

/-- A room-move row for Monday slot 2 (old subject Chemistry). -/
def c1rowOther : Row := ⟨c1date, ["IGD21"], .placeChange 2 .chemistry "B10"⟩

/-- A cancellation row for Monday slot 2 (old subject Chemistry). -/
def c1rowCancel : Row := ⟨c1date, ["IGD21"], .cancel 2 .chemistry⟩

/-- A snapshot whose set iterates the room move before the cancellation. -/
def c1store : Data := ⟨0, 0, [c1rowOther, c1rowCancel], []⟩

end Bszet

deriving instance DecidableEq for Except

namespace Bszet

/-! ### Helper lemmas -/

/-- A change constructed by `Change.new lesson ...` carries that lesson
number. -/
theorem Change.new_lesson_eq (lesson : Nat) (t old new room : String)
    (notice : Option String) (c : Change)
    (h : Change.new lesson t old new room notice = .ok c) :
    c.lesson = lesson := by
  unfold Change.new at h
  split at h
  · split at h
    · cases h; rfl
    · cases h
  · split at h
    · cases h; rfl
    · cases h; rfl

/-- A relevant row (target date, tracked class) whose change does not
apply extends the unknown-row list and keeps the day returned by the
failed application. -/
theorem applyRow_no_match (date : Date) (acc : List Lesson × List Row)
    (r : Row) (hdate : r.date = date)
    (hclass : r.classes.contains "IGD21" = true ∨
      r.classes.contains "IGD 21" = true)
    (hnomatch : (r.change.apply acc.1).2 = false) :
    applyRow date acc r = ((r.change.apply acc.1).1, acc.2 ++ [r]) := by
  have hcond : ¬(r.date ≠ date ∨
      ¬(r.classes.contains "IGD21" = true ∨
        r.classes.contains "IGD 21" = true)) := by
    push_neg
    exact ⟨hdate, hclass⟩
  unfold applyRow
  rw [if_neg hcond]
  show (if (r.change.apply acc.1).2 = true then ((r.change.apply acc.1).1, acc.2)
    else ((r.change.apply acc.1).1, acc.2 ++ [r])) = _
  rw [hnomatch]
  simp

/-- Folding the row-application step only ever appends to the list of
unknown rows: membership is preserved. -/
theorem applyRow_foldl_mem (date : Date) (l : List Row)
    (acc : List Lesson × List Row) (x : Row) (hx : x ∈ acc.2) :
    x ∈ (l.foldl (applyRow date) acc).2 := by
  induction l generalizing acc with
  | nil => exact hx
  | cons a t ih =>
    refine ih _ ?_
    unfold applyRow
    split
    · exact hx
    · dsimp only
      split
      · exact hx
      · exact List.mem_append_left _ hx

/-- Lemma for the iteration filter: the `filterMap` of the source equals a
plain filter keeping markerless lessons and lessons whose marker equals
the iteration. -/
theorem iteration_filter_eq_filter (l : List Lesson) (it : Nat) :
    iteration_filter l it =
      l.filter fun le =>
        match le.iteration with
        | some k => k == it
        | Option.none => true := by
  induction l with
  | nil => rfl
  | cons a t ih =>
    have hstep : iteration_filter (a :: t) it =
        (match a.iteration with
          | some k => if k ≠ it then Option.none else some a
          | Option.none => some a).elim (iteration_filter t it)
          (· :: iteration_filter t it) := by
      unfold iteration_filter
      rw [List.filterMap_cons]
      cases a.iteration with
      | none => rfl
      | some k =>
        by_cases hk : k = it
        · simp [hk]
        · simp [hk]
    rw [hstep, List.filter_cons]
    cases h : a.iteration with
    | none => simpa using ih
    | some k =>
      by_cases hk : k = it
      · simp only [hk, ite_not, if_pos rfl, Option.elim_some, beq_self_eq_true,
          if_true]
        rw [ih]
      · have hbeq : (k == it) = false := beq_false_of_ne hk
        simp only [if_pos hk, Option.elim_none, hbeq, if_false]
        exact ih

/-! ### C4 — block conversion -/

/-- C4: for every raw single-period hour number `h` (every `u8` value below
255, where the `u8` addition cannot wrap), `convert_lesson` returns the
block `(h + h % 2) / 2`; in particular hour 1 maps to block 1, hour 2 to
block 1, hour 3 to block 2, hour 4 to block 2, and hour 7 to block 4. -/
theorem convert_lesson_block_formula :
    (∀ h : Nat, h < 255 → convert_lesson h = (h + h % 2) / 2) ∧
    convert_lesson 1 = 1 ∧ convert_lesson 2 = 1 ∧ convert_lesson 3 = 2 ∧
    convert_lesson 4 = 2 ∧ convert_lesson 7 = 4 := by
  refine ⟨fun h hh => ?_, rfl, rfl, rfl, rfl, rfl⟩
  unfold convert_lesson
  have hlt : h + h % 2 < 256 := by omega
  rw [Nat.mod_eq_of_lt hlt]

/-- Witness for C4 at the concrete hour 7. -/
theorem convert_lesson_block_formula_witness :
    convert_lesson 7 = (7 + 7 % 2) / 2 :=
  convert_lesson_block_formula.1 7 (by decide)

/-! ### C9 — Row equality and class-list order -/

/-- C9, counterexample: two rows with the same date, the same change and
class lists holding the same class names in different orders are *not*
equal — `#[derive(PartialEq)]` on `Row` compares the `Vec<String>` class
list as an ordered sequence. -/
theorem row_class_order_counterexample :
    ¬(Row.mk ⟨2023, 1, 23⟩ ["IGD21", "IGD 21"] (.cancel 2 .chemistry) =
      Row.mk ⟨2023, 1, 23⟩ ["IGD 21", "IGD21"] (.cancel 2 .chemistry)) := by
  decide

/-- C9, amended: `Row` equality is componentwise structural equality of
`(date, class, change)` with the class list compared as an ordered
sequence, so permuting the class names changes the row (and the snapshot
diff treats such rows as different). -/
theorem row_eq_iff_components (d₁ d₂ : Date) (c₁ c₂ : List String)
    (ch₁ ch₂ : Change) :
    Row.mk d₁ c₁ ch₁ = Row.mk d₂ c₂ ch₂ ↔ d₁ = d₂ ∧ c₁ = c₂ ∧ ch₁ = ch₂ := by
  constructor
  · intro h
    injection h with h₁ h₂ h₃
    exact ⟨h₁, h₂, h₃⟩
  · rintro ⟨rfl, rfl, rfl⟩
    rfl

/-! ### C10 — no snapshot yet -/

/-- C10: for every date whose weekday has base lessons and for which the
external iteration rule yields an iteration, if no snapshot is stored,
`get_applied_timetable` returns exactly the base lessons of that weekday
filtered to the iteration (marked lessons with a different marker removed,
unmarked lessons kept) together with an empty unknown-row list. -/
theorem get_applied_timetable_no_snapshot (it : Nat) (date : Date)
    (ls : List Lesson) (h : IGD21 date.weekday = some ls) :
    get_applied_timetable (some it) date Option.none =
      some (ls.filter (fun le =>
        match le.iteration with
        | some k => k == it
        | Option.none => true), []) := by
  unfold get_applied_timetable
  rw [h]
  show some (iteration_filter ls it, []) = _
  rw [iteration_filter_eq_filter]

/-- Witness for C10: Monday 2023-01-23 in iteration 2. -/
theorem get_applied_timetable_no_snapshot_witness :
    get_applied_timetable (some 2) ⟨2023, 1, 23⟩ Option.none =
      some (((IGD21 (Date.weekday ⟨2023, 1, 23⟩)).getD []).filter (fun le =>
        match le.iteration with
        | some k => k == 2
        | Option.none => true), []) :=
  get_applied_timetable_no_snapshot 2 ⟨2023, 1, 23⟩
    ((IGD21 (Date.weekday ⟨2023, 1, 23⟩)).getD []) (by decide)

/-! ### C1 — application order of the stored rows -/

/-- C1, counterexample: `get_applied_timetable` does not apply the stored
rows in two kind-ordered passes.  With a room move iterated before a
cancellation of the same Monday slot 2, the single pass of the code
applies both (moved room, then cancelled subject, nothing unknown), while
the two-pass cancel-first order of the spec cancels slot 2 first and then
fails to match the room move (original room kept, row reported unknown). -/
theorem get_applied_timetable_not_twopass :
    get_applied_timetable (some 1) c1date (some c1store) ≠
      get_applied_timetable_twopass (some 1) c1date (some c1store) := by
  decide

/-- C1, amended: `get_applied_timetable` applies the snapshot rows for the
date (restricted to the tracked class inside `applyRow`) in a *single*
pass, in the iteration order of the stored set — splitting the stored
sequence anywhere splits the computation sequentially, with no
partitioning or reordering by change kind. -/
theorem get_applied_timetable_single_pass (it : Nat) (date : Date)
    (ls : List Lesson) (lc lm : Nat) (vu : List String) (l₁ l₂ : List Row)
    (h : IGD21 date.weekday = some ls) :
    get_applied_timetable (some it) date (some ⟨lc, lm, l₁ ++ l₂, vu⟩) =
      some (l₂.foldl (applyRow date)
        (l₁.foldl (applyRow date) (iteration_filter ls it, []))) := by
  unfold get_applied_timetable
  rw [h]
  show some (List.foldl (applyRow date) (iteration_filter ls it, []) (l₁ ++ l₂)) = _
  rw [List.foldl_append]

/-- Witness for C1 (amended) on the concrete ordering scenario. -/
theorem get_applied_timetable_single_pass_witness :
    get_applied_timetable (some 1) c1date
        (some ⟨0, 0, [c1rowOther] ++ [c1rowCancel], []⟩) =
      some (List.foldl (applyRow c1date)
        (List.foldl (applyRow c1date)
          (iteration_filter ((IGD21 (Date.weekday c1date)).getD []) 1, [])
          [c1rowOther])
        [c1rowCancel]) :=
  get_applied_timetable_single_pass 1 c1date
    ((IGD21 (Date.weekday c1date)).getD []) 0 0 [] [c1rowOther] [c1rowCancel]
    (by decide)

/-! ### C8 — unmatched rows are collected, not errors -/

/-- C8: a stored row for the target date and tracked class whose change
finds no matching lesson in the day built so far does not make
`get_applied_timetable` fail: the call still returns a value, the row is
appended to the unknown-row list, and the remaining rows are applied
after it. -/
theorem unmatched_row_collected (it : Nat) (date : Date) (ls : List Lesson)
    (lc lm : Nat) (vu : List String) (pre post : List Row) (r : Row)
    (hIG : IGD21 date.weekday = some ls)
    (hdate : r.date = date)
    (hclass : r.classes.contains "IGD21" = true ∨
      r.classes.contains "IGD 21" = true)
    (hnomatch :
      (r.change.apply
        (pre.foldl (applyRow date) (iteration_filter ls it, [])).1).2 = false) :
    get_applied_timetable (some it) date (some ⟨lc, lm, pre ++ r :: post, vu⟩) =
      some (post.foldl (applyRow date)
        ((r.change.apply
            (pre.foldl (applyRow date) (iteration_filter ls it, [])).1).1,
          (pre.foldl (applyRow date) (iteration_filter ls it, [])).2 ++ [r])) ∧
    r ∈ (post.foldl (applyRow date)
        ((r.change.apply
            (pre.foldl (applyRow date) (iteration_filter ls it, [])).1).1,
          (pre.foldl (applyRow date) (iteration_filter ls it, [])).2 ++ [r])).2 := by
  constructor
  · unfold get_applied_timetable
    rw [hIG]
    show some (List.foldl (applyRow date)
      (iteration_filter ls it, []) (pre ++ r :: post)) = _
    rw [List.foldl_append, List.foldl_cons,
      applyRow_no_match date _ r hdate hclass hnomatch]
  · exact applyRow_foldl_mem date post _ r (List.mem_append_right _ (by simp))

/-- Witness for C8: a cancellation addressing the nonexistent Monday slot 9
is returned as unknown while the day is left as built. -/
theorem unmatched_row_collected_witness :
    get_applied_timetable (some 1) c1date
        (some ⟨0, 0, [] ++ (⟨c1date, ["IGD21"], .cancel 9 .chemistry⟩ : Row) :: [], []⟩) =
      some (List.foldl (applyRow c1date)
        (((Row.mk c1date ["IGD21"] (.cancel 9 .chemistry)).change.apply
            (List.foldl (applyRow c1date)
              (iteration_filter ((IGD21 (Date.weekday c1date)).getD []) 1, []) []).1).1,
          (List.foldl (applyRow c1date)
            (iteration_filter ((IGD21 (Date.weekday c1date)).getD []) 1, []) []).2 ++
            [⟨c1date, ["IGD21"], .cancel 9 .chemistry⟩])
        []) ∧
    (⟨c1date, ["IGD21"], .cancel 9 .chemistry⟩ : Row) ∈
      (List.foldl (applyRow c1date)
        (((Row.mk c1date ["IGD21"] (.cancel 9 .chemistry)).change.apply
            (List.foldl (applyRow c1date)
              (iteration_filter ((IGD21 (Date.weekday c1date)).getD []) 1, []) []).1).1,
          (List.foldl (applyRow c1date)
            (iteration_filter ((IGD21 (Date.weekday c1date)).getD []) 1, []) []).2 ++
            [⟨c1date, ["IGD21"], .cancel 9 .chemistry⟩])
        []).2 :=
  unmatched_row_collected 1 c1date ((IGD21 (Date.weekday c1date)).getD []) 0 0 []
    [] [] ⟨c1date, ["IGD21"], .cancel 9 .chemistry⟩ (by decide) rfl
    (Or.inl (by decide)) (by decide)

/-! ### C7 — column count must be exactly seven -/

/-- C7: if any table row of a crawled page does not have exactly seven
columns, parsing the table aborts with an error (the row is never turned
into a `Row`, and no later row is processed). -/
theorem parse_wrong_column_count (date : Date) (rows0 : List Row)
    (pre : List (List String)) (tr : List String) (post : List (List String))
    (h : tr.length ≠ 7) :
    ∃ e, parseTableRows date rows0 (pre ++ tr :: post) = .error e := by
  induction pre generalizing rows0 with
  | nil =>
    refine ⟨"panicked: Invalid count of columns", ?_⟩
    rw [List.nil_append]
    show (match parseRowStep date rows0 tr with
      | Except.error e => Except.error e
      | Except.ok rows => parseTableRows date rows post) = _
    have hstep : parseRowStep date rows0 tr =
        .error "panicked: Invalid count of columns" := by
      unfold parseRowStep
      rw [if_pos (by rwa [List.length_map])]
    rw [hstep]
  | cons a l ih =>
    rw [List.cons_append]
    show ∃ e, (match parseRowStep date rows0 a with
      | Except.error e => Except.error e
      | Except.ok rows => parseTableRows date rows (l ++ tr :: post)) =
        Except.error e
    cases hstep : parseRowStep date rows0 a with
    | error e => exact ⟨e, rfl⟩
    | ok rows => exact ih rows

/-- Witness for C7: a one-column row aborts the parse. -/
theorem parse_wrong_column_count_witness :
    ∃ e, parseTableRows ⟨2023, 1, 23⟩ [] ([] ++ ["IGD21"] :: []) = .error e :=
  parse_wrong_column_count ⟨2023, 1, 23⟩ [] [] ["IGD21"] [] (by decide)

/-! ### C2 — transport and structural fetch errors abort the crawl -/

/-- C2: a page with a non-success HTTP status, a missing `Last-Modified`
header, no date heading or no table body makes its fetch fail, and
whenever the crawl loop of `update` fails, `update` returns that error to
the caller and leaves the stored snapshot completely unchanged (no partial
snapshot is produced). -/
theorem update_fetch_error_leaves_store (entrypoint url : String) (p : Page)
    (rows : List Row) (html_rows : List (Date × List String)) (now : Nat)
    (pages : List Page) (store : Option Data) (e : String) :
    ((p.statusOk = false ∨ p.lastModified = Option.none ∨ p.h1Dates = [] ∨
        p.tbodyRows = Option.none) →
      ∃ err, fetch entrypoint url p rows html_rows = .error err) ∧
    (crawlLoop entrypoint entrypoint pages [] [] [] = .error e →
      update now entrypoint pages store = (.error e, store)) := by
  constructor
  · intro hbad
    cases hs : p.statusOk with
    | false =>
      exact ⟨"http status error", by unfold fetch; rw [hs]; rfl⟩
    | true =>
      cases hlm : p.lastModified with
      | none =>
        exact ⟨"last-modified http header is required",
          by unfold fetch; rw [hs, hlm]; rfl⟩
      | some lm =>
        cases hh : p.h1Dates.getLast? with
        | none =>
          exact ⟨"Missing date in document",
            by unfold fetch; rw [hs, hlm, hh]; rfl⟩
        | some date =>
          cases ht : p.tbodyRows with
          | none =>
            exact ⟨"Missing time table in document",
              by unfold fetch; rw [hs, hlm, hh, ht]; rfl⟩
          | some table =>
            rcases hbad with h | h | h | h
            · rw [hs] at h; cases h
            · rw [hlm] at h; cases h
            · rw [h] at hh; cases hh
            · rw [ht] at h; cases h
  · intro hcrawl
    unfold update
    rw [hcrawl]

/-- Witness for C2: one page answering with a failure status makes the
whole update fail and keeps the previous snapshot unchanged. -/
theorem update_fetch_error_leaves_store_witness :
    (∃ err, fetch "E" "E"
        ⟨false, Option.none, [], [], Option.none, Option.none⟩ [] [] =
      .error err) ∧
    update 5 "E" [⟨false, Option.none, [], [], Option.none, Option.none⟩]
        (some ⟨1, 2, [], ["u"]⟩) =
      (.error "http status error", some ⟨1, 2, [], ["u"]⟩) :=
  ⟨(update_fetch_error_leaves_store "E" "E"
      ⟨false, Option.none, [], [], Option.none, Option.none⟩ [] [] 5
      [⟨false, Option.none, [], [], Option.none, Option.none⟩]
      (some ⟨1, 2, [], ["u"]⟩) "http status error").1 (Or.inl rfl),
   (update_fetch_error_leaves_store "E" "E"
      ⟨false, Option.none, [], [], Option.none, Option.none⟩ [] [] 5
      [⟨false, Option.none, [], [], Option.none, Option.none⟩]
      (some ⟨1, 2, [], ["u"]⟩) "http status error").2 rfl⟩

/-! ### C6 — blank class/slot columns inherit from the previous row -/

/-- Helper: the shape of `parseRowStep` on a row with exactly seven cleaned
columns, with every `let` of the source expanded. -/
theorem parseRowStep_eq_of_len7 (date : Date) (rows : List Row)
    (tr : List String) (h7 : (tr.map clean).length = 7) :
    parseRowStep date rows tr =
      (match lessonOf ((tr.map clean).getD 1 "") with
      | Except.error e => Except.error e
      | Except.ok lesson? =>
        match rows.getLast? with
        | some last =>
          match Change.new (lesson?.getD last.change.lesson)
              ((tr.map clean).getD 5 "") ((tr.map clean).getD 2 "")
              ((tr.map clean).getD 3 "") ((tr.map clean).getD 4 "")
              (if (tr.map clean).getD 6 "" = "" then Option.none
                else some ((tr.map clean).getD 6 "")) with
          | Except.error e => Except.error e
          | Except.ok change =>
            Except.ok (rows ++ [⟨date,
              (if (tr.map clean).getD 0 "" = "" then Option.none
                else some (splitClasses ((tr.map clean).getD 0 ""))).getD
                last.classes,
              change⟩])
        | Option.none =>
          match (if (tr.map clean).getD 0 "" = "" then Option.none
              else some (splitClasses ((tr.map clean).getD 0 ""))) with
          | Option.none =>
            Except.error "panicked: First row, can not have missing fields."
          | some classes =>
            match lesson? with
            | Option.none =>
              Except.error "panicked: First row, can not have missing fields."
            | some lesson =>
              match Change.new lesson ((tr.map clean).getD 5 "")
                  ((tr.map clean).getD 2 "") ((tr.map clean).getD 3 "")
                  ((tr.map clean).getD 4 "")
                  (if (tr.map clean).getD 6 "" = "" then Option.none
                    else some ((tr.map clean).getD 6 "")) with
              | Except.error e => Except.error e
              | Except.ok change =>
                Except.ok (rows ++ [⟨date, classes, change⟩])) := by
  unfold parseRowStep
  rw [if_neg (fun hc => hc h7)]

/-- C6: during row extraction, with a previous accumulated row available, a
row inherits exactly its blank mandatory columns from that row: the parse
appends a row whose class list is the previous one when the class column
is blank (and the split own column otherwise), and whose change carries
the previous slot number when the slot column is blank (the constructed
change always carries `lesson?.getD last.change.lesson`, the parsed own
slot if present and the inherited one if blank); a first row of a crawl
(empty accumulator) with a blank class or slot column is a fatal parse
error, not a default. -/
theorem blank_columns_inherit (date : Date) (rows0 : List Row) (last : Row)
    (tr : List String) (rest : List (List String)) (lesson? : Option Nat)
    (ch : Change) (h7 : (tr.map clean).length = 7) :
    ((rows0.getLast? = some last →
      lessonOf ((tr.map clean).getD 1 "") = .ok lesson? →
      Change.new (lesson?.getD last.change.lesson) ((tr.map clean).getD 5 "")
        ((tr.map clean).getD 2 "") ((tr.map clean).getD 3 "")
        ((tr.map clean).getD 4 "")
        (if (tr.map clean).getD 6 "" = "" then Option.none
          else some ((tr.map clean).getD 6 "")) = .ok ch →
      parseTableRows date rows0 (tr :: rest) =
        parseTableRows date (rows0 ++ [⟨date,
          (if (tr.map clean).getD 0 "" = "" then Option.none
            else some (splitClasses ((tr.map clean).getD 0 ""))).getD
            last.classes, ch⟩]) rest ∧
      ((tr.map clean).getD 0 "" = "" →
        (if (tr.map clean).getD 0 "" = "" then Option.none
          else some (splitClasses ((tr.map clean).getD 0 ""))).getD
          last.classes = last.classes) ∧
      ((tr.map clean).getD 1 "" = "" → ch.lesson = last.change.lesson)) ∧
    (rows0 = [] →
      ((tr.map clean).getD 0 "" = "" ∨ (tr.map clean).getD 1 "" = "") →
      ∃ e, parseTableRows date rows0 (tr :: rest) = .error e)) := by
  constructor
  · intro hlast hl hch
    have hstep : parseRowStep date rows0 tr =
        .ok (rows0 ++ [⟨date,
          (if (tr.map clean).getD 0 "" = "" then Option.none
            else some (splitClasses ((tr.map clean).getD 0 ""))).getD
            last.classes, ch⟩]) := by
      rw [parseRowStep_eq_of_len7 date rows0 tr h7, hl, hlast]
      show (match Change.new (lesson?.getD last.change.lesson)
          ((tr.map clean).getD 5 "") ((tr.map clean).getD 2 "")
          ((tr.map clean).getD 3 "") ((tr.map clean).getD 4 "")
          (if (tr.map clean).getD 6 "" = "" then Option.none
            else some ((tr.map clean).getD 6 "")) with
        | Except.error e => Except.error e
        | Except.ok change =>
          Except.ok (rows0 ++ [Row.mk date
            ((if (tr.map clean).getD 0 "" = "" then Option.none
              else some (splitClasses ((tr.map clean).getD 0 ""))).getD
              last.classes) change])) = _
      rw [hch]
    refine ⟨?_, ?_, ?_⟩
    · show (match parseRowStep date rows0 tr with
        | Except.error e => Except.error e
        | Except.ok rows => parseTableRows date rows rest) = _
      rw [hstep]
    · intro hc0
      rw [hc0]
      rfl
    · intro hc1
      rw [hc1] at hl
      rw [show lessonOf "" = Except.ok (Option.none (α := Nat)) from rfl] at hl
      injection hl with hl
      subst hl
      exact Change.new_lesson_eq _ _ _ _ _ _ _ hch
  · intro hnil hblank
    subst hnil
    rw [show parseTableRows date [] (tr :: rest) =
        (match parseRowStep date [] tr with
        | Except.error e => Except.error e
        | Except.ok rows => parseTableRows date rows rest) from rfl,
      parseRowStep_eq_of_len7 date [] tr h7]
    cases hl : lessonOf ((tr.map clean).getD 1 "") with
    | error e => exact ⟨e, rfl⟩
    | ok lesson? =>
      rcases hblank with h0 | h1
      · rw [h0]
        exact ⟨_, rfl⟩
      · rw [h1] at hl
        rw [show lessonOf "" = Except.ok (Option.none (α := Nat)) from rfl] at hl
        injection hl with hl
        subst hl
        by_cases hc0 : (tr.map clean).getD 0 "" = ""
        · rw [hc0]
          exact ⟨_, rfl⟩
        · rw [if_neg hc0]
          exact ⟨_, rfl⟩

/-- The previous accumulated row used by the C6 witness (slot 3, so the
witness row visibly keeps its own slot while inheriting the class list). -/
def c6prev : Row := ⟨⟨2023, 1, 23⟩, ["IGD21"], .cancel 3 .chemistry⟩

/-- A row with a blank class column but a given slot column, used by the
C6 witness (the single-blank shape substitution sheets commonly take). -/
def c6tr : List String := ["", "4.", "CH", "", "B9", "", ""]

/-- Witness for C6: a second row with a blank class column but its own slot
column inherits only the class list from the first row (the change keeps
the parsed slot 2 from the column value 4.), and a first crawl row with a
blank class column is fatal. -/
theorem blank_columns_inherit_witness :
    (parseTableRows ⟨2023, 1, 23⟩ [c6prev] (c6tr :: []) =
      parseTableRows ⟨2023, 1, 23⟩
        ([c6prev] ++ [⟨⟨2023, 1, 23⟩,
          (if (c6tr.map clean).getD 0 "" = "" then Option.none
            else some (splitClasses ((c6tr.map clean).getD 0 ""))).getD
            c6prev.classes,
          .cancel 2 .chemistry⟩]) [] ∧
      ((c6tr.map clean).getD 0 "" = "" →
        (if (c6tr.map clean).getD 0 "" = "" then Option.none
          else some (splitClasses ((c6tr.map clean).getD 0 ""))).getD
          c6prev.classes = c6prev.classes) ∧
      ((c6tr.map clean).getD 1 "" = "" →
        (Change.cancel 2 Subject.chemistry).lesson =
          c6prev.change.lesson)) ∧
    (∃ e, parseTableRows ⟨2023, 1, 23⟩ []
        (["", "2.", "DEU", "MA", "B1", "", "note"] :: []) = .error e) :=
  ⟨(blank_columns_inherit ⟨2023, 1, 23⟩ [c6prev] c6prev c6tr [] (some 2)
      (.cancel 2 .chemistry) (by decide)).1 rfl (by decide) (by decide),
   (blank_columns_inherit ⟨2023, 1, 23⟩ []
      ⟨⟨2023, 1, 23⟩, ["IGD21"], .cancel 2 .chemistry⟩
      ["", "2.", "DEU", "MA", "B1", "", "note"] [] (some 1)
      (.replacement 2 .germanBasic .mathBasic (some "B1") (some "note"))
      (by decide)).2 rfl (Or.inl (by decide))⟩

/-! ### C3 — unchanged crawl result -/

/-- C3 names the no-change path of `update`; the code on that path panics
before the comparison whenever the crawled documents contain no table row
dated 2023-01-27, because of the leftover debug block in
`Davinci::update` (`html_rows2.get(&Date(2023-01-27)).unwrap()`).  At a
store holding the empty row set and a crawl of one well-formed page (dated
2024-05-06) whose table is empty — so the crawled row set is value-equal
to the stored one — the call errors out instead of returning `false`, and
the store (in particular `last_checked`) is completely untouched.  With
the debug date present the intended behaviour appears: the call returns
`false` and only `last_checked` advances. -/
theorem update_no_change_panics_on_debug_date :
    rowSetEq (hashInsertAll []) ([] : List Row) = true ∧
    update 200 "E"
        [⟨true, some 100, [⟨2024, 5, 6⟩], [], some [], Option.none⟩]
        (some ⟨7, 8, [], ["old"]⟩) =
      (.error "panicked: unwrap on html_rows2.get(2023-01-27)",
        some ⟨7, 8, [], ["old"]⟩) ∧
    update 200 "E"
        [⟨true, some 100, [⟨2023, 1, 27⟩], [["x"]], some [], Option.none⟩]
        (some ⟨7, 8, [], ["old"]⟩) =
      (.ok false, some ⟨200, 8, [], ["old"]⟩) := by
  refine ⟨rfl, rfl, rfl⟩

/-! ### C5 — stored `last_modified` -/

/-- C5 names the stored `last_modified`; after a successful `update` the
code stores the crawl time `now` in `last_modified` (the parsed
`Last-Modified` values of the pages are discarded after logging), not the
maximum of the Last-Modified timestamps reported across pages: a crawl at
time 200 of one page reporting 100 stores 200. -/
theorem update_last_modified_is_now :
    update 200 "E"
        [⟨true, some 100, [⟨2023, 1, 27⟩], [["x"]], some [], Option.none⟩]
        Option.none =
      (.ok true, some ⟨200, 200, [], ["E"]⟩) ∧
    spec_max_last_modified
        [⟨true, some 100, [⟨2023, 1, 27⟩], [["x"]], some [], Option.none⟩] =
      some 100 ∧
    (200 : Nat) ≠ 100 := by
  refine ⟨rfl, rfl, by decide⟩

end Bszet
